import Mathlib

/-!
Verification of the trailing-edge geometry and wake-emission kinematics of
the Vortexje lifting-surface code (`lifting-surface.cpp`) and of the no-op
boundary-layer strategy (`dummy-boundary-layer.cpp`).

The C++ code computes with Eigen `Vector3d` (double precision); the claims
under verification are algebraic identities of the underlying vector
algebra, so the embedding models the arithmetic over the real numbers.
Eigen's `normalize()` divides a vector by its Euclidean norm; for the zero
vector the model yields the zero vector (division by zero), which is the
conservative rendering of the undefined C++ behaviour and is only ever
relied upon under explicit non-degeneracy hypotheses.
-/

namespace Vortexje

/-- Model of Eigen `Vector3d`: a 3-vector of reals. -/
structure Vector3d where
  x : ℝ
  y : ℝ
  z : ℝ

namespace Vector3d

instance : Zero Vector3d := ⟨⟨0, 0, 0⟩⟩

instance : Add Vector3d := ⟨fun a b => ⟨a.x + b.x, a.y + b.y, a.z + b.z⟩⟩

instance : Sub Vector3d := ⟨fun a b => ⟨a.x - b.x, a.y - b.y, a.z - b.z⟩⟩

instance : Neg Vector3d := ⟨fun a => ⟨-a.x, -a.y, -a.z⟩⟩

instance : SMul ℝ Vector3d := ⟨fun c a => ⟨c * a.x, c * a.y, c * a.z⟩⟩

/-- Eigen `dot`. -/
def dot (a b : Vector3d) : ℝ :=
  a.x * b.x + a.y * b.y + a.z * b.z

/-- Eigen `cross`. -/
def cross (a b : Vector3d) : Vector3d :=
  ⟨a.y * b.z - a.z * b.y, a.z * b.x - a.x * b.z, a.x * b.y - a.y * b.x⟩

/-- Eigen `norm`: the Euclidean length. -/
noncomputable def norm (a : Vector3d) : ℝ :=
  Real.sqrt (a.dot a)

/-- Eigen `normalize` (functionally): divide by the Euclidean norm. -/
noncomputable def normalize (a : Vector3d) : Vector3d :=
  (1 / a.norm) • a

end Vector3d

/-- The 2D integer-id grids (`Eigen::MatrixXi`) holding the node and panel
ids of each surface half; entries are addressed (chordwise row, spanwise
column). -/
structure MatrixXi where
  rows : Nat
  cols : Nat
  entry : Nat → Nat → Nat

/-- The run configuration read by `wake_emission_velocity`
(`Parameters::wake_emission_follow_bisector`). -/
structure Parameters where
  wake_emission_follow_bisector : Bool

/-- The lifting-surface state visible to the functions under verification:
the node-position store (indexed by node id) and the four topology grids. -/
structure LiftingSurface where
  nodes : Nat → Vector3d
  upper_nodes : MatrixXi
  lower_nodes : MatrixXi
  upper_panels : MatrixXi
  lower_panels : MatrixXi

namespace LiftingSurface

/-- `LiftingSurface::n_chordwise_nodes`: `upper_nodes.rows()`. -/
def n_chordwise_nodes (s : LiftingSurface) : Nat :=
  s.upper_nodes.rows

/-- `LiftingSurface::n_chordwise_panels`: `upper_panels.rows()`. -/
def n_chordwise_panels (s : LiftingSurface) : Nat :=
  s.upper_panels.rows

/-- `LiftingSurface::n_spanwise_nodes`: `upper_nodes.cols()`. -/
def n_spanwise_nodes (s : LiftingSurface) : Nat :=
  s.upper_nodes.cols

/-- `LiftingSurface::n_spanwise_panels`: `upper_panels.cols()`. -/
def n_spanwise_panels (s : LiftingSurface) : Nat :=
  s.upper_panels.cols

/-- `LiftingSurface::trailing_edge_node`:
`upper_nodes(upper_nodes.rows() - 1, index)`. -/
def trailing_edge_node (s : LiftingSurface) (index : Nat) : Nat :=
  s.upper_nodes.entry (s.upper_nodes.rows - 1) index

/-- `LiftingSurface::trailing_edge_upper_panel`:
`upper_panels(upper_panels.rows() - 1, index)`. -/
def trailing_edge_upper_panel (s : LiftingSurface) (index : Nat) : Nat :=
  s.upper_panels.entry (s.upper_panels.rows - 1) index

/-- `LiftingSurface::trailing_edge_lower_panel`:
`lower_panels(lower_panels.rows() - 1, index)`. -/
def trailing_edge_lower_panel (s : LiftingSurface) (index : Nat) : Nat :=
  s.lower_panels.entry (s.lower_panels.rows - 1) index

/-- The local `upper` tangent of `LiftingSurface::trailing_edge_bisector`:
`nodes[upper_nodes(rows-1, i)] - nodes[upper_nodes(rows-2, i)]`. -/
def upper_tangent (s : LiftingSurface) (node_index : Nat) : Vector3d :=
  s.nodes (s.upper_nodes.entry (s.upper_nodes.rows - 1) node_index) -
    s.nodes (s.upper_nodes.entry (s.upper_nodes.rows - 2) node_index)

/-- The local `lower` tangent of `LiftingSurface::trailing_edge_bisector`:
`nodes[lower_nodes(rows-1, i)] - nodes[lower_nodes(rows-2, i)]`. -/
def lower_tangent (s : LiftingSurface) (node_index : Nat) : Vector3d :=
  s.nodes (s.lower_nodes.entry (s.lower_nodes.rows - 1) node_index) -
    s.nodes (s.lower_nodes.entry (s.lower_nodes.rows - 2) node_index)

/-- `LiftingSurface::trailing_edge_bisector`: normalize both chordwise
tangents, add, normalize the sum. -/
noncomputable def trailing_edge_bisector (s : LiftingSurface) (node_index : Nat) : Vector3d :=
  ((s.upper_tangent node_index).normalize + (s.lower_tangent node_index).normalize).normalize

/-- The clamped `prev_node` of `LiftingSurface::wake_emission_velocity`. -/
def prev_node (s : LiftingSurface) (node_index : Nat) : Nat :=
  if node_index > 0 then s.trailing_edge_node (node_index - 1)
  else s.trailing_edge_node node_index

/-- The clamped `next_node` of `LiftingSurface::wake_emission_velocity`. -/
def next_node (s : LiftingSurface) (node_index : Nat) : Nat :=
  if node_index < s.n_spanwise_nodes - 1 then s.trailing_edge_node (node_index + 1)
  else s.trailing_edge_node node_index

/-- The local `span_direction` of `LiftingSurface::wake_emission_velocity`:
`nodes[next_node] - nodes[prev_node]`. -/
def span_direction (s : LiftingSurface) (node_index : Nat) : Vector3d :=
  s.nodes (s.next_node node_index) - s.nodes (s.prev_node node_index)

/-- The local `wake_normal` of `LiftingSurface::wake_emission_velocity`:
the normalized cross product of the span direction and the bisector. -/
noncomputable def wake_normal (s : LiftingSurface) (node_index : Nat) : Vector3d :=
  ((s.span_direction node_index).cross (s.trailing_edge_bisector node_index)).normalize

/-- `LiftingSurface::wake_emission_velocity`. -/
noncomputable def wake_emission_velocity (p : Parameters) (s : LiftingSurface)
    (apparent_velocity : Vector3d) (node_index : Nat) : Vector3d :=
  if p.wake_emission_follow_bisector = true ∧ 1 < s.n_chordwise_nodes then
    if s.prev_node node_index ≠ s.next_node node_index then
      -(apparent_velocity -
        (apparent_velocity.dot (s.wake_normal node_index)) • s.wake_normal node_index)
    else
      (-(apparent_velocity.dot (s.trailing_edge_bisector node_index))) •
        s.trailing_edge_bisector node_index
  else
    -apparent_velocity

end LiftingSurface

/-- Model of `DummyBoundaryLayer`: the strategy object with whatever
internal state the base class carries (abstracted as `σ`). -/
structure DummyBoundaryLayer (σ : Type) where
  state : σ

namespace DummyBoundaryLayer

/-- `DummyBoundaryLayer::recalculate`: the body is empty, so the state is
returned untouched. -/
def recalculate {σ : Type} (bl : DummyBoundaryLayer σ)
    (surface_velocities : List Vector3d) : DummyBoundaryLayer σ :=
  bl

/-- `DummyBoundaryLayer::blowing_velocity`: returns `0.0`. -/
def blowing_velocity {σ : Type} (bl : DummyBoundaryLayer σ) (panel : Int) : ℝ :=
  0

/-- `DummyBoundaryLayer::friction`: returns `Vector3d(0, 0, 0)`. -/
def friction {σ : Type} (bl : DummyBoundaryLayer σ) (panel : Int) : Vector3d :=
  ⟨0, 0, 0⟩

end DummyBoundaryLayer

/-- Concrete test mesh (spec Scenarios 1 and 2): a flat rectangular
surface with 2 chordwise rows and 3 spanwise stations, chordwise along the
x-axis, spanwise along the y-axis; upper and lower halves share nodes. -/
def exampleSurface : LiftingSurface where
  nodes := fun n =>
    match n with
    | 0 => ⟨0, 0, 0⟩
    | 1 => ⟨0, 1, 0⟩
    | 2 => ⟨0, 2, 0⟩
    | 3 => ⟨1, 0, 0⟩
    | 4 => ⟨1, 1, 0⟩
    | _ => ⟨1, 2, 0⟩
  upper_nodes := ⟨2, 3, fun r c => r * 3 + c⟩
  lower_nodes := ⟨2, 3, fun r c => r * 3 + c⟩
  upper_panels := ⟨1, 2, fun r c => r * 2 + c⟩
  lower_panels := ⟨1, 2, fun r c => r * 2 + c⟩

/-- Concrete degenerate test mesh: a single spanwise column
(`n_spanwise_nodes = 1`) with 2 chordwise rows along the x-axis. -/
def exampleColumn : LiftingSurface where
  nodes := fun n =>
    match n with
    | 0 => ⟨0, 0, 0⟩
    | _ => ⟨1, 0, 0⟩
  upper_nodes := ⟨2, 1, fun r _ => r⟩
  lower_nodes := ⟨2, 1, fun r _ => r⟩
  upper_panels := ⟨1, 0, fun r _ => r⟩
  lower_panels := ⟨1, 0, fun r _ => r⟩

/-- Configuration with the bisector-following flag set. -/
def followOn : Parameters := ⟨true⟩

/-- Configuration with the bisector-following flag unset. -/
def followOff : Parameters := ⟨false⟩

namespace Vector3d

/-- Two vectors are equal when their components agree. -/
@[ext] theorem ext_components {a b : Vector3d}
    (hx : a.x = b.x) (hy : a.y = b.y) (hz : a.z = b.z) : a = b := by
  cases a
  cases b
  simp_all

@[simp] theorem x_add (a b : Vector3d) : (a + b).x = a.x + b.x := rfl

@[simp] theorem y_add (a b : Vector3d) : (a + b).y = a.y + b.y := rfl

@[simp] theorem z_add (a b : Vector3d) : (a + b).z = a.z + b.z := rfl

@[simp] theorem x_sub (a b : Vector3d) : (a - b).x = a.x - b.x := rfl

@[simp] theorem y_sub (a b : Vector3d) : (a - b).y = a.y - b.y := rfl

@[simp] theorem z_sub (a b : Vector3d) : (a - b).z = a.z - b.z := rfl

@[simp] theorem x_neg (a : Vector3d) : (-a).x = -a.x := rfl

@[simp] theorem y_neg (a : Vector3d) : (-a).y = -a.y := rfl

@[simp] theorem z_neg (a : Vector3d) : (-a).z = -a.z := rfl

@[simp] theorem x_smul (c : ℝ) (a : Vector3d) : (c • a).x = c * a.x := rfl

@[simp] theorem y_smul (c : ℝ) (a : Vector3d) : (c • a).y = c * a.y := rfl

@[simp] theorem z_smul (c : ℝ) (a : Vector3d) : (c • a).z = c * a.z := rfl

@[simp] theorem x_zero : (0 : Vector3d).x = 0 := rfl

@[simp] theorem y_zero : (0 : Vector3d).y = 0 := rfl

@[simp] theorem z_zero : (0 : Vector3d).z = 0 := rfl

@[simp] theorem x_mk (a b c : ℝ) : (Vector3d.mk a b c).x = a := rfl

@[simp] theorem y_mk (a b c : ℝ) : (Vector3d.mk a b c).y = b := rfl

@[simp] theorem z_mk (a b c : ℝ) : (Vector3d.mk a b c).z = c := rfl

/-- The self dot product is a sum of squares, hence nonnegative. -/
theorem dot_self_nonneg (a : Vector3d) : 0 ≤ a.dot a := by
  simp only [dot]
  nlinarith [mul_self_nonneg a.x, mul_self_nonneg a.y, mul_self_nonneg a.z]

/-- The self dot product vanishes exactly on the zero vector. -/
theorem dot_self_eq_zero_iff (a : Vector3d) : a.dot a = 0 ↔ a = 0 := by
  constructor
  · intro h
    simp only [dot] at h
    have hx : a.x * a.x = 0 := by
      nlinarith [mul_self_nonneg a.x, mul_self_nonneg a.y, mul_self_nonneg a.z]
    have hy : a.y * a.y = 0 := by
      nlinarith [mul_self_nonneg a.x, mul_self_nonneg a.y, mul_self_nonneg a.z]
    have hz : a.z * a.z = 0 := by
      nlinarith [mul_self_nonneg a.x, mul_self_nonneg a.y, mul_self_nonneg a.z]
    ext
    · simpa using mul_self_eq_zero.mp hx
    · simpa using mul_self_eq_zero.mp hy
    · simpa using mul_self_eq_zero.mp hz
  · intro h
    rw [h]
    simp [dot]

/-- Scaling both arguments scales the dot product quadratically. -/
theorem smul_dot_smul (c d : ℝ) (a b : Vector3d) :
    (c • a).dot (d • b) = c * d * a.dot b := by
  simp only [dot, x_smul, y_smul, z_smul]
  ring

/-- A normalized nonzero vector has unit self dot product. -/
theorem normalize_dot_self_of_ne {a : Vector3d} (h : a ≠ 0) :
    a.normalize.dot a.normalize = 1 := by
  have hd : a.dot a ≠ 0 := fun hc => h ((dot_self_eq_zero_iff a).mp hc)
  have hpos : 0 < a.dot a := lt_of_le_of_ne (dot_self_nonneg a) (Ne.symm hd)
  have hs : Real.sqrt (a.dot a) * Real.sqrt (a.dot a) = a.dot a :=
    Real.mul_self_sqrt (le_of_lt hpos)
  have hsne : Real.sqrt (a.dot a) ≠ 0 := by
    intro hc
    rw [hc, mul_comm, mul_zero] at hs
    exact hd hs.symm
  rw [normalize, smul_dot_smul, norm]
  field_simp

/-- The self dot product of any normalized vector is zero or one. -/
theorem normalize_dot_self (a : Vector3d) :
    a.normalize.dot a.normalize = 0 ∨ a.normalize.dot a.normalize = 1 := by
  by_cases h : a = 0
  · left
    rw [h]
    simp [normalize, norm, dot]
  · right
    exact normalize_dot_self_of_ne h

/-- If the normalized vector has zero self dot product, it is zero. -/
theorem normalize_eq_zero_of_dot {a : Vector3d}
    (h : a.normalize.dot a.normalize = 0) : a.normalize = 0 :=
  (dot_self_eq_zero_iff a.normalize).mp h

/-- Cauchy-Schwarz for the 3D dot product (Lagrange identity form). -/
theorem dot_sq_le_dot_mul_dot (a b : Vector3d) :
    a.dot b * a.dot b ≤ a.dot a * b.dot b := by
  simp only [dot]
  nlinarith [mul_self_nonneg (a.x * b.y - a.y * b.x),
    mul_self_nonneg (a.x * b.z - a.z * b.x),
    mul_self_nonneg (a.y * b.z - a.z * b.y)]

/-- Negation preserves the Euclidean norm. -/
theorem norm_neg (a : Vector3d) : (-a).norm = a.norm := by
  rw [norm, norm]
  congr 1
  simp only [dot, x_neg, y_neg, z_neg]
  ring

end Vector3d

namespace LiftingSurface

/-- Shared branch lemma: when the flag is off or there are not at least
two chordwise nodes, the wake emission velocity is the negated apparent
velocity. -/
theorem wake_emission_velocity_direct (p : Parameters) (s : LiftingSurface)
    (v : Vector3d) (i : Nat)
    (h : ¬(p.wake_emission_follow_bisector = true ∧ 1 < s.n_chordwise_nodes)) :
    wake_emission_velocity p s v i = -v := by
  unfold wake_emission_velocity
  rw [if_neg h]

/-- Shared branch lemma: in bisector mode with distinct clamped
neighbors, the result is the negated projection off the wake normal. -/
theorem wake_emission_velocity_plane (p : Parameters) (s : LiftingSurface)
    (v : Vector3d) (i : Nat)
    (hf : p.wake_emission_follow_bisector = true)
    (hc : 1 < s.n_chordwise_nodes)
    (hpn : s.prev_node i ≠ s.next_node i) :
    wake_emission_velocity p s v i =
      -(v - (v.dot (s.wake_normal i)) • s.wake_normal i) := by
  unfold wake_emission_velocity
  rw [if_pos ⟨hf, hc⟩, if_pos hpn]

/-- Shared branch lemma: in bisector mode with equal clamped neighbors,
the result is the negated projection onto the bisector line. -/
theorem wake_emission_velocity_line (p : Parameters) (s : LiftingSurface)
    (v : Vector3d) (i : Nat)
    (hf : p.wake_emission_follow_bisector = true)
    (hc : 1 < s.n_chordwise_nodes)
    (hpn : s.prev_node i = s.next_node i) :
    wake_emission_velocity p s v i =
      (-(v.dot (s.trailing_edge_bisector i))) • s.trailing_edge_bisector i := by
  unfold wake_emission_velocity
  rw [if_pos ⟨hf, hc⟩, if_neg (fun hne => hne hpn)]

/-- The wake normal has self dot product zero or one (it is a
normalization result). -/
theorem wake_normal_dot_self (s : LiftingSurface) (i : Nat) :
    (s.wake_normal i).dot (s.wake_normal i) = 0 ∨
    (s.wake_normal i).dot (s.wake_normal i) = 1 :=
  Vector3d.normalize_dot_self
    ((s.span_direction i).cross (s.trailing_edge_bisector i))

/-- The trailing-edge bisector has self dot product zero or one (it is a
normalization result). -/
theorem trailing_edge_bisector_dot_self (s : LiftingSurface) (i : Nat) :
    (s.trailing_edge_bisector i).dot (s.trailing_edge_bisector i) = 0 ∨
    (s.trailing_edge_bisector i).dot (s.trailing_edge_bisector i) = 1 :=
  Vector3d.normalize_dot_self
    ((s.upper_tangent i).normalize + (s.lower_tangent i).normalize)

end LiftingSurface

/-- Claim C1: in bisector-following mode (flag set, more than one
chordwise node) with distinct clamped trailing-edge neighbors, the wake
emission velocity is the negated projection of the apparent velocity onto
the plane spanned by the span direction and the bisector, and its dot
product with the wake normal is zero. -/
theorem wake_emission_plane_branch (p : Parameters) (s : LiftingSurface)
    (v : Vector3d) (i : Nat)
    (hf : p.wake_emission_follow_bisector = true)
    (hc : 1 < s.n_chordwise_nodes)
    (hpn : s.prev_node i ≠ s.next_node i) :
    LiftingSurface.wake_emission_velocity p s v i =
      -(v - (v.dot (s.wake_normal i)) • s.wake_normal i) ∧
    (LiftingSurface.wake_emission_velocity p s v i).dot (s.wake_normal i) = 0 := by
  have hb := LiftingSurface.wake_emission_velocity_plane p s v i hf hc hpn
  refine ⟨hb, ?_⟩
  rw [hb]
  rcases s.wake_normal_dot_self i with h0 | h1
  · have hz : s.wake_normal i = 0 :=
      (Vector3d.dot_self_eq_zero_iff (s.wake_normal i)).mp h0
    rw [hz]
    simp [Vector3d.dot]
  · set n := s.wake_normal i with hn
    simp only [Vector3d.dot, Vector3d.x_neg, Vector3d.y_neg, Vector3d.z_neg,
      Vector3d.x_sub, Vector3d.y_sub, Vector3d.z_sub,
      Vector3d.x_smul, Vector3d.y_smul, Vector3d.z_smul] at h1 ⊢
    linear_combination (v.x * n.x + v.y * n.y + v.z * n.z) * h1

/-- Claim C2: when the flag is unset or there are at most one chordwise
node, the wake emission velocity is exactly the negated apparent
velocity, for every velocity and every spanwise index. -/
theorem wake_emission_direct_mode (p : Parameters) (s : LiftingSurface)
    (v : Vector3d) (i : Nat)
    (h : p.wake_emission_follow_bisector = false ∨ s.n_chordwise_nodes ≤ 1) :
    LiftingSurface.wake_emission_velocity p s v i = -v := by
  apply LiftingSurface.wake_emission_velocity_direct
  rintro ⟨hf, hc⟩
  rcases h with h | h
  · rw [hf] at h
    exact Bool.noConfusion h
  · omega

/-- Claim C3: the clamped neighbors follow the boundary-clamping formulas
of the source, and on a single-spanwise-station mesh the two neighbors
coincide so the bisector-line-projection branch is taken. -/
theorem wake_emission_clamped_neighbors (p : Parameters) (s : LiftingSurface)
    (v : Vector3d) (i : Nat)
    (hspan : s.n_spanwise_nodes = 1)
    (hi : i < s.n_spanwise_nodes)
    (hf : p.wake_emission_follow_bisector = true)
    (hc : 1 < s.n_chordwise_nodes) :
    s.prev_node i =
      (if i > 0 then s.trailing_edge_node (i - 1) else s.trailing_edge_node i) ∧
    s.next_node i =
      (if i < s.n_spanwise_nodes - 1 then s.trailing_edge_node (i + 1)
        else s.trailing_edge_node i) ∧
    s.prev_node i = s.next_node i ∧
    LiftingSurface.wake_emission_velocity p s v i =
      (-(v.dot (s.trailing_edge_bisector i))) • s.trailing_edge_bisector i := by
  have hi0 : i = 0 := by omega
  subst hi0
  have hprev : s.prev_node 0 = s.trailing_edge_node 0 := by
    simp [LiftingSurface.prev_node]
  have hnext : s.next_node 0 = s.trailing_edge_node 0 := by
    simp [LiftingSurface.next_node, hspan]
  have heq : s.prev_node 0 = s.next_node 0 := by rw [hprev, hnext]
  exact ⟨rfl, rfl, heq,
    LiftingSurface.wake_emission_velocity_line p s v 0 hf hc heq⟩

/-- Claim C4: in bisector-following mode with equal clamped neighbors the
wake emission velocity is the negated projection of the apparent velocity
onto the trailing-edge bisector, hence parallel to the bisector. -/
theorem wake_emission_line_branch (p : Parameters) (s : LiftingSurface)
    (v : Vector3d) (i : Nat)
    (hf : p.wake_emission_follow_bisector = true)
    (hc : 1 < s.n_chordwise_nodes)
    (hpn : s.prev_node i = s.next_node i) :
    LiftingSurface.wake_emission_velocity p s v i =
      (-(v.dot (s.trailing_edge_bisector i))) • s.trailing_edge_bisector i ∧
    ∃ c : ℝ, LiftingSurface.wake_emission_velocity p s v i =
      c • s.trailing_edge_bisector i := by
  have hb := LiftingSurface.wake_emission_velocity_line p s v i hf hc hpn
  exact ⟨hb, ⟨-(v.dot (s.trailing_edge_bisector i)), hb⟩⟩

/-- Claim C6: the trailing-edge node accessor returns the entry of the
upper node grid at its last chordwise row and the given spanwise
column. -/
theorem trailing_edge_node_is_last_row (s : LiftingSurface) (i : Nat)
    (hi : i < s.n_spanwise_nodes) :
    s.trailing_edge_node i = s.upper_nodes.entry (s.upper_nodes.rows - 1) i :=
  rfl

/-- Claim C7: the no-op boundary-layer strategy returns blowing velocity
zero and zero friction for every panel, and recalculation leaves its
state unchanged for every surface-velocity input. -/
theorem dummy_boundary_layer_noop {σ : Type} :
    ∀ (bl : DummyBoundaryLayer σ) (sv : List Vector3d) (panel : Int),
      bl.recalculate sv = bl ∧
      bl.blowing_velocity panel = 0 ∧
      bl.friction panel = 0 :=
  fun bl sv panel => ⟨rfl, rfl, rfl⟩

/-- Claim C8: every in-scope query is a pure function of the mesh state,
its arguments and the configuration flag: the state is taken immutably,
and two calls with the same state and arguments return the same
results. -/
theorem queries_deterministic (s1 s2 : LiftingSurface) (p1 p2 : Parameters)
    (v : Vector3d) (i : Nat) (hs : s1 = s2) (hp : p1 = p2) :
    s1.n_chordwise_nodes = s2.n_chordwise_nodes ∧
    s1.n_chordwise_panels = s2.n_chordwise_panels ∧
    s1.n_spanwise_nodes = s2.n_spanwise_nodes ∧
    s1.n_spanwise_panels = s2.n_spanwise_panels ∧
    s1.trailing_edge_node i = s2.trailing_edge_node i ∧
    s1.trailing_edge_upper_panel i = s2.trailing_edge_upper_panel i ∧
    s1.trailing_edge_lower_panel i = s2.trailing_edge_lower_panel i ∧
    s1.trailing_edge_bisector i = s2.trailing_edge_bisector i ∧
    LiftingSurface.wake_emission_velocity p1 s1 v i =
      LiftingSurface.wake_emission_velocity p2 s2 v i := by
  subst hs
  subst hp
  exact ⟨rfl, rfl, rfl, rfl, rfl, rfl, rfl, rfl, rfl⟩

/-- Claim C5: with at least two chordwise nodes, nonzero chordwise
tangents and non-anti-parallel unit tangents, the trailing-edge bisector
is the normalized sum of the unit tangents and has unit norm. -/
theorem trailing_edge_bisector_unit (s : LiftingSurface) (i : Nat)
    (hc : 2 ≤ s.n_chordwise_nodes) (hi : i < s.n_spanwise_nodes)
    (hu : s.upper_tangent i ≠ 0) (hl : s.lower_tangent i ≠ 0)
    (hap : (s.upper_tangent i).normalize ≠ -((s.lower_tangent i).normalize)) :
    s.trailing_edge_bisector i =
      ((s.upper_tangent i).normalize + (s.lower_tangent i).normalize).normalize ∧
    (s.trailing_edge_bisector i).norm = 1 := by
  refine ⟨rfl, ?_⟩
  have hsum : (s.upper_tangent i).normalize + (s.lower_tangent i).normalize ≠ 0 := by
    intro h
    apply hap
    ext
    · have hx := congrArg Vector3d.x h
      simp only [Vector3d.x_add, Vector3d.x_zero] at hx
      simp only [Vector3d.x_neg]
      linarith
    · have hy := congrArg Vector3d.y h
      simp only [Vector3d.y_add, Vector3d.y_zero] at hy
      simp only [Vector3d.y_neg]
      linarith
    · have hz := congrArg Vector3d.z h
      simp only [Vector3d.z_add, Vector3d.z_zero] at hz
      simp only [Vector3d.z_neg]
      linarith
  have h1 : (s.trailing_edge_bisector i).dot (s.trailing_edge_bisector i) = 1 :=
    Vector3d.normalize_dot_self_of_ne hsum
  show Real.sqrt ((s.trailing_edge_bisector i).dot (s.trailing_edge_bisector i)) = 1
  rw [h1, Real.sqrt_one]

/-- Claim C9: the wake emission velocity never exceeds the apparent
velocity in norm, and in direct mode (flag unset or at most one chordwise
node) the norms are equal. -/
theorem wake_emission_no_amplification (p : Parameters) (s : LiftingSurface)
    (v : Vector3d) (i : Nat) :
    (LiftingSurface.wake_emission_velocity p s v i).norm ≤ v.norm ∧
    ((p.wake_emission_follow_bisector = false ∨ s.n_chordwise_nodes ≤ 1) →
      (LiftingSurface.wake_emission_velocity p s v i).norm = v.norm) := by
  constructor
  · have hd : (LiftingSurface.wake_emission_velocity p s v i).dot
        (LiftingSurface.wake_emission_velocity p s v i) ≤ v.dot v := by
      by_cases h1 : p.wake_emission_follow_bisector = true ∧ 1 < s.n_chordwise_nodes
      · by_cases h2 : s.prev_node i ≠ s.next_node i
        · rw [LiftingSurface.wake_emission_velocity_plane p s v i h1.1 h1.2 h2]
          rcases s.wake_normal_dot_self i with h0 | h0
          · have hz : s.wake_normal i = 0 :=
              (Vector3d.dot_self_eq_zero_iff (s.wake_normal i)).mp h0
            rw [hz]
            apply le_of_eq
            simp only [Vector3d.dot, Vector3d.x_neg, Vector3d.y_neg,
              Vector3d.z_neg, Vector3d.x_sub, Vector3d.y_sub, Vector3d.z_sub,
              Vector3d.x_smul, Vector3d.y_smul, Vector3d.z_smul,
              Vector3d.x_zero, Vector3d.y_zero, Vector3d.z_zero]
            ring
          · set n := s.wake_normal i with hn
            simp only [Vector3d.dot, Vector3d.x_neg, Vector3d.y_neg,
              Vector3d.z_neg, Vector3d.x_sub, Vector3d.y_sub, Vector3d.z_sub,
              Vector3d.x_smul, Vector3d.y_smul, Vector3d.z_smul] at h0 ⊢
            nlinarith [h0, mul_self_nonneg (v.x * n.x + v.y * n.y + v.z * n.z)]
        · push_neg at h2
          rw [LiftingSurface.wake_emission_velocity_line p s v i h1.1 h1.2 h2]
          rw [Vector3d.smul_dot_smul]
          rcases s.trailing_edge_bisector_dot_self i with h0 | h0
          · rw [h0, mul_zero]
            exact Vector3d.dot_self_nonneg v
          · rw [h0]
            have key := Vector3d.dot_sq_le_dot_mul_dot v (s.trailing_edge_bisector i)
            rw [h0, mul_one] at key
            nlinarith [key]
      · rw [LiftingSurface.wake_emission_velocity_direct p s v i h1]
        apply le_of_eq
        simp only [Vector3d.dot, Vector3d.x_neg, Vector3d.y_neg, Vector3d.z_neg]
        ring
    exact Real.sqrt_le_sqrt hd
  · intro h
    have hneg : LiftingSurface.wake_emission_velocity p s v i = -v := by
      apply LiftingSurface.wake_emission_velocity_direct
      rintro ⟨hf, hc⟩
      rcases h with h | h
      · rw [hf] at h
        exact Bool.noConfusion h
      · omega
    rw [hneg, Vector3d.norm_neg]

/-- Claim C10: for a fixed mesh state, configuration and spanwise index,
the wake emission velocity is linear in the apparent velocity. -/
theorem wake_emission_linear (p : Parameters) (s : LiftingSurface) (i : Nat)
    (a b : ℝ) (u w : Vector3d) :
    LiftingSurface.wake_emission_velocity p s (a • u + b • w) i =
      a • LiftingSurface.wake_emission_velocity p s u i +
        b • LiftingSurface.wake_emission_velocity p s w i := by
  unfold LiftingSurface.wake_emission_velocity
  split_ifs with h1 h2
  · ext <;> simp [Vector3d.dot] <;> ring
  · ext <;> simp [Vector3d.dot] <;> ring
  · ext <;> simp [Vector3d.dot] <;> ring

/-- Witness for claim C1 (spec Scenario 2): middle station of the flat
3-station mesh, apparent velocity (2, 0, -5). -/
theorem wake_emission_plane_branch_witness :
    LiftingSurface.wake_emission_velocity followOn exampleSurface
      (Vector3d.mk 2 0 (-5)) 1 =
      -(Vector3d.mk 2 0 (-5) -
        ((Vector3d.mk 2 0 (-5)).dot (exampleSurface.wake_normal 1)) •
          exampleSurface.wake_normal 1) ∧
    (LiftingSurface.wake_emission_velocity followOn exampleSurface
      (Vector3d.mk 2 0 (-5)) 1).dot (exampleSurface.wake_normal 1) = 0 :=
  wake_emission_plane_branch followOn exampleSurface (Vector3d.mk 2 0 (-5)) 1
    rfl (by decide) (by decide)

/-- Witness for claim C2 (spec Scenario 1): flag unset, apparent velocity
(0, 0, -5). -/
theorem wake_emission_direct_mode_witness :
    LiftingSurface.wake_emission_velocity followOff exampleSurface
      (Vector3d.mk 0 0 (-5)) 0 = -(Vector3d.mk 0 0 (-5)) :=
  wake_emission_direct_mode followOff exampleSurface (Vector3d.mk 0 0 (-5)) 0
    (Or.inl rfl)

/-- Witness for claim C3: the single-spanwise-column mesh. -/
theorem wake_emission_clamped_neighbors_witness :
    exampleColumn.prev_node 0 =
      (if 0 > 0 then exampleColumn.trailing_edge_node (0 - 1)
        else exampleColumn.trailing_edge_node 0) ∧
    exampleColumn.next_node 0 =
      (if 0 < exampleColumn.n_spanwise_nodes - 1 then
        exampleColumn.trailing_edge_node (0 + 1)
        else exampleColumn.trailing_edge_node 0) ∧
    exampleColumn.prev_node 0 = exampleColumn.next_node 0 ∧
    LiftingSurface.wake_emission_velocity followOn exampleColumn
      (Vector3d.mk 0 0 (-5)) 0 =
      (-((Vector3d.mk 0 0 (-5)).dot (exampleColumn.trailing_edge_bisector 0))) •
        exampleColumn.trailing_edge_bisector 0 :=
  wake_emission_clamped_neighbors followOn exampleColumn (Vector3d.mk 0 0 (-5)) 0
    rfl (by decide) rfl (by decide)

/-- Witness for claim C4: equal clamped neighbors on the
single-spanwise-column mesh. -/
theorem wake_emission_line_branch_witness :
    LiftingSurface.wake_emission_velocity followOn exampleColumn
      (Vector3d.mk 0 0 (-5)) 0 =
      (-((Vector3d.mk 0 0 (-5)).dot (exampleColumn.trailing_edge_bisector 0))) •
        exampleColumn.trailing_edge_bisector 0 ∧
    ∃ c : ℝ, LiftingSurface.wake_emission_velocity followOn exampleColumn
      (Vector3d.mk 0 0 (-5)) 0 = c • exampleColumn.trailing_edge_bisector 0 :=
  wake_emission_line_branch followOn exampleColumn (Vector3d.mk 0 0 (-5)) 0
    rfl (by decide) (by decide)

/-- Witness for claim C5: the flat mesh has both tangents (1, 0, 0),
which are nonzero and not anti-parallel. -/
theorem trailing_edge_bisector_unit_witness :
    exampleSurface.trailing_edge_bisector 0 =
      ((exampleSurface.upper_tangent 0).normalize +
        (exampleSurface.lower_tangent 0).normalize).normalize ∧
    (exampleSurface.trailing_edge_bisector 0).norm = 1 := by
  have et : exampleSurface.upper_tangent 0 = ⟨1, 0, 0⟩ := by
    ext
    · show (1 : ℝ) - 0 = 1
      norm_num
    · show (0 : ℝ) - 0 = 0
      norm_num
    · show (0 : ℝ) - 0 = 0
      norm_num
  have el : exampleSurface.lower_tangent 0 = ⟨1, 0, 0⟩ := by
    ext
    · show (1 : ℝ) - 0 = 1
      norm_num
    · show (0 : ℝ) - 0 = 0
      norm_num
    · show (0 : ℝ) - 0 = 0
      norm_num
  have en : (Vector3d.mk (1 : ℝ) 0 0).normalize = ⟨1, 0, 0⟩ := by
    unfold Vector3d.normalize Vector3d.norm
    have hd : (Vector3d.mk (1 : ℝ) 0 0).dot (Vector3d.mk (1 : ℝ) 0 0) = 1 := by
      simp [Vector3d.dot]
    rw [hd, Real.sqrt_one]
    ext <;> simp
  refine trailing_edge_bisector_unit exampleSurface 0 (by decide) (by decide)
    ?_ ?_ ?_
  · rw [et]
    intro h
    have hx := congrArg Vector3d.x h
    simp at hx
  · rw [el]
    intro h
    have hx := congrArg Vector3d.x h
    simp at hx
  · rw [et, el, en]
    intro h
    have hx := congrArg Vector3d.x h
    norm_num at hx

/-- Witness for claim C6: first trailing-edge node of the flat mesh. -/
theorem trailing_edge_node_witness :
    exampleSurface.trailing_edge_node 0 =
      exampleSurface.upper_nodes.entry (exampleSurface.upper_nodes.rows - 1) 0 :=
  trailing_edge_node_is_last_row exampleSurface 0 (by decide)

/-- Witness for claim C8: determinism at the flat mesh. -/
theorem queries_deterministic_witness :
    exampleSurface.n_chordwise_nodes = exampleSurface.n_chordwise_nodes ∧
    exampleSurface.n_chordwise_panels = exampleSurface.n_chordwise_panels ∧
    exampleSurface.n_spanwise_nodes = exampleSurface.n_spanwise_nodes ∧
    exampleSurface.n_spanwise_panels = exampleSurface.n_spanwise_panels ∧
    exampleSurface.trailing_edge_node 0 = exampleSurface.trailing_edge_node 0 ∧
    exampleSurface.trailing_edge_upper_panel 0 =
      exampleSurface.trailing_edge_upper_panel 0 ∧
    exampleSurface.trailing_edge_lower_panel 0 =
      exampleSurface.trailing_edge_lower_panel 0 ∧
    exampleSurface.trailing_edge_bisector 0 =
      exampleSurface.trailing_edge_bisector 0 ∧
    LiftingSurface.wake_emission_velocity followOn exampleSurface
      (Vector3d.mk 1 2 3) 0 =
      LiftingSurface.wake_emission_velocity followOn exampleSurface
        (Vector3d.mk 1 2 3) 0 :=
  queries_deterministic exampleSurface exampleSurface followOn followOn
    (Vector3d.mk 1 2 3) 0 rfl rfl

/-- Witness for claim C9: direct mode attains equality of norms. -/
theorem wake_emission_no_amplification_witness :
    (LiftingSurface.wake_emission_velocity followOff exampleSurface
      (Vector3d.mk 0 0 (-5)) 0).norm ≤ (Vector3d.mk 0 0 (-5)).norm ∧
    (LiftingSurface.wake_emission_velocity followOff exampleSurface
      (Vector3d.mk 0 0 (-5)) 0).norm = (Vector3d.mk 0 0 (-5)).norm :=
  ⟨(wake_emission_no_amplification followOff exampleSurface
      (Vector3d.mk 0 0 (-5)) 0).1,
   (wake_emission_no_amplification followOff exampleSurface
      (Vector3d.mk 0 0 (-5)) 0).2 (Or.inl rfl)⟩

end Vortexje
